import Mathlib

/-!
# Network observability console plugin: query compilation and result normalisation

A shallow embedding of three Go sources of the plugin,

* `pkg/loki/topology_query.go`  (`NewTopologyQuery`, `TopologyQueryBuilder.Build`),
* `pkg/prometheus/client.go`    (`NewClient`, `executeQueryRange`, `QueryMatrix`),
* `pkg/handler/loki.go`         (`getLokiError`),

followed by theorems about them.  Go strings are Lean strings and Go `int64` values are
integers reduced into the 64-bit signed range where the source computes with them.  A
constructor that returns `(value, error)` is an `Except` value; a function that returns a
value, a status code and an error returns the triple, the error being `none` for nil.
Calls that leave the repository (the file system, the Prometheus API client, the JSON
decoder) are parameters of the function that makes them.
-/

set_option autoImplicit false
set_option maxRecDepth 10000

namespace NetObserv

/-! ## Go runtime and standard library -/

/-- Go `len(s)` for a string: the number of bytes of its UTF-8 encoding. -/
def len (s : String) : Nat := s.utf8ByteSize

/-- The two error causes of package `strconv`. -/
inductive NumError where
  | ErrSyntax
  | ErrRange
deriving DecidableEq, Repr

/-- Largest `uint64`. -/
def maxUint64 : Nat := 2 ^ 64 - 1

/-- Smallest `int64`. -/
def minInt64 : Int := -(2 ^ 63)

/-- Largest `int64`. -/
def maxInt64 : Int := 2 ^ 63 - 1

/-- Conversion of a mathematical integer to `int64`, as Go's wrapping arithmetic does. -/
def wrapInt64 (x : Int) : Int := (x + 2 ^ 63) % 2 ^ 64 - 2 ^ 63

/-- The digit loop of `strconv.ParseUint(s, 10, 64)`: `n` is the value read so far.  A
character that is not a decimal digit is a syntax error (in base 10 a letter is a digit
value of at least 10, and every byte of a non-ASCII character is outside the digit and
letter ranges); a value that leaves the `uint64` range is a range error, reported with the
largest `uint64`. -/
def parseUintLoop : List Char → Nat → Nat × Option NumError
  | [], n => (n, none)
  | c :: cs, n =>
    if '0' ≤ c ∧ c ≤ '9' then
      if n ≥ maxUint64 / 10 + 1 then (maxUint64, some NumError.ErrRange)
      else
        let n1 := n * 10 + (c.toNat - '0'.toNat)
        if n1 > maxUint64 then (maxUint64, some NumError.ErrRange)
        else parseUintLoop cs n1
    else (0, some NumError.ErrSyntax)

/-- Go `strconv.ParseUint(s, 10, 64)`. -/
def ParseUint (s : List Char) : Nat × Option NumError :=
  if s = [] then (0, some NumError.ErrSyntax) else parseUintLoop s 0

/-- Go `strconv.ParseInt(s, 10, 64)`: an optional sign, then `ParseUint`, then the check
against the signed range. -/
def ParseInt (s : String) : Int × Option NumError :=
  if s = "" then (0, some NumError.ErrSyntax)
  else
    let signed : Bool × List Char :=
      match s.data with
      | '+' :: rest => (false, rest)
      | '-' :: rest => (true, rest)
      | rest => (false, rest)
    let neg := signed.1
    let r := ParseUint signed.2
    let un := r.1
    if r.2 = some NumError.ErrSyntax then (0, r.2)
    else
      let cutoff : Nat := 2 ^ 63
      if neg = false ∧ un ≥ cutoff then ((cutoff : Int) - 1, some NumError.ErrRange)
      else if neg = true ∧ un > cutoff then (-(cutoff : Int), some NumError.ErrRange)
      else (if neg then -(un : Int) else (un : Int), none)

/-- Go `strconv.FormatInt(i, 10)`: the decimal rendering of `i`. -/
def FormatInt (i : Int) : String :=
  if i < 0 then "-" ++ Nat.repr i.natAbs else Nat.repr i.natAbs

/-- Go `strings.Builder`: the text written so far. -/
structure Builder where
  buf : String
deriving DecidableEq, Repr

/-- Go `(*strings.Builder).WriteString`. -/
def Builder.WriteString (sb : Builder) (s : String) : Builder := ⟨sb.buf ++ s⟩

/-- Go `(*strings.Builder).WriteRune`. -/
def Builder.WriteRune (sb : Builder) (r : Char) : Builder := ⟨sb.buf.push r⟩

/-- Go `(*strings.Builder).String`. -/
def Builder.String (sb : Builder) : String := sb.buf

/-! ## `pkg/loki/topology_query.go` -/

def topologyDefaultLimit : String := "100"

def topologyDefaultRange : String := "300"

def topologyMetrics : String :=
  "SrcK8S_Name,SrcK8S_Type,SrcK8S_OwnerName,SrcK8S_OwnerType,SrcK8S_Namespace,SrcAddr,SrcK8S_HostIP,DstK8S_Name,DstK8S_Type,DstK8S_OwnerName,DstK8S_OwnerType,DstK8S_Namespace,DstAddr,DstK8S_HostIP"

structure Topology where
  limit : String
  timeRange : String
  metricFunction : String
  dataField : String
deriving DecidableEq, Repr


/-- Modelled from the spec: `FlowQueryBuilder`, its constructor and its methods
`createStringBuilderURL`, `appendLabels`, `appendLineFilters`, `appendJSON` and
`appendQueryParams` belong to package `loki` but their file is not among the sources.
The spec describes them as appending, in a fixed order, the label selector, the line
filters and the structured-field (JSON) filters; a builder is therefore represented by the
text each of its methods writes. -/
structure FlowQueryBuilder where
  /-- Text `createStringBuilderURL` starts the builder with. -/
  urlText : String
  /-- Text `appendLabels` writes. -/
  labelsText : String
  /-- Text `appendLineFilters` writes. -/
  lineFiltersText : String
  /-- Text `appendJSON` writes, by its `forceAppend` argument. -/
  jsonText : Bool → String
  /-- Text `appendQueryParams` writes. -/
  queryParamsText : String

def FlowQueryBuilder.createStringBuilderURL (q : FlowQueryBuilder) : Builder :=
  ⟨q.urlText⟩

def FlowQueryBuilder.appendLabels (q : FlowQueryBuilder) (sb : Builder) : Builder :=
  sb.WriteString q.labelsText

def FlowQueryBuilder.appendLineFilters (q : FlowQueryBuilder) (sb : Builder) : Builder :=
  sb.WriteString q.lineFiltersText

def FlowQueryBuilder.appendJSON (q : FlowQueryBuilder) (sb : Builder) (forceAppend : Bool) :
    Builder :=
  sb.WriteString (q.jsonText forceAppend)

def FlowQueryBuilder.appendQueryParams (q : FlowQueryBuilder) (sb : Builder) : Builder :=
  sb.WriteString q.queryParamsText

structure TopologyQueryBuilder where
  FlowQueryBuilder : FlowQueryBuilder
  topology : Topology

section topology

variable {Config : Type}

/-- Go `NewTopologyQuery`.  The constructor `NewFlowQueryBuilder` of the embedded flow
builder is a parameter; a Go `error` is represented by its message. -/
def NewTopologyQuery
    (NewFlowQueryBuilder : Config → String → String → String → String → FlowQueryBuilder)
    (cfg : Config) (start end_ limit metricFunction metricType reporter : String) :
    Except String TopologyQueryBuilder :=
  let l := if len limit = 0 then topologyDefaultLimit else limit
  let timeRange : Except String String :=
    if len start > 0 ∧ len end_ > 0 then
      let startTime := ParseInt start
      if startTime.2 ≠ none then
        Except.error ("can't parse start param: " ++ start)
      else
        let endTime := ParseInt end_
        if endTime.2 ≠ none then
          Except.error ("can't parse end param: " ++ end_)
        else
          let rng := wrapInt64 (endTime.1 - startTime.1)
          if rng > 0 then Except.ok (FormatInt rng) else Except.ok topologyDefaultRange
    else Except.ok topologyDefaultRange
  match timeRange with
  | Except.error err => Except.error err
  | Except.ok timeRange =>
    let f :=
      if metricFunction = "avg" then "avg_over_time"
      else if metricFunction = "max" then "max_over_time"
      else if metricFunction = "rate" then "rate"
      else "sum_over_time"
    let t := if metricType = "packets" then "Packets" else "Bytes"
    Except.ok
      { FlowQueryBuilder := NewFlowQueryBuilder cfg start end_ limit reporter
        topology :=
          { timeRange := timeRange
            limit := l
            metricFunction := f
            dataField := t } }

end topology

/-- Go `(*TopologyQueryBuilder).Build`. -/
def TopologyQueryBuilder.Build (q : TopologyQueryBuilder) : String :=
  let sb := q.FlowQueryBuilder.createStringBuilderURL
  let sb := sb.WriteString "topk("
  let sb := sb.WriteString q.topology.limit
  let sb := sb.WriteString ",sum by("
  let sb := sb.WriteString topologyMetrics
  let sb := sb.WriteString ") ("
  let sb := sb.WriteString q.topology.metricFunction
  let sb := sb.WriteString "("
  let sb := q.FlowQueryBuilder.appendLabels sb
  let sb := q.FlowQueryBuilder.appendLineFilters sb
  let sb := q.FlowQueryBuilder.appendJSON sb true
  let sb :=
    if q.topology.metricFunction ≠ "rate" ∧ len q.topology.dataField > 0 then
      let sb := sb.WriteString "|unwrap "
      let sb := sb.WriteString q.topology.dataField
      sb.WriteString "|__error__=\"\""
    else sb
  let sb := sb.WriteRune '['
  let sb := sb.WriteString q.topology.timeRange
  let sb := sb.WriteString "s])))"
  let sb := q.FlowQueryBuilder.appendQueryParams sb
  let sb := sb.WriteString "&step=60s"
  sb.String

/-- The fourteen grouping keys of a topology query. -/
def topologyMetricsFields : List String :=
  ["SrcK8S_Name", "SrcK8S_Type", "SrcK8S_OwnerName", "SrcK8S_OwnerType", "SrcK8S_Namespace",
   "SrcAddr", "SrcK8S_HostIP", "DstK8S_Name", "DstK8S_Type", "DstK8S_OwnerName",
   "DstK8S_OwnerType", "DstK8S_Namespace", "DstAddr", "DstK8S_HostIP"]

/-- A flow builder with the fixed label selector and no further filter. -/
def sampleFlow : FlowQueryBuilder :=
  { urlText := "http://loki:3100/loki/api/v1/query_range?query="
    labelsText := "\x7bapp=\"netobserv-flowcollector\"\x7d"
    lineFiltersText := ""
    jsonText := fun forceAppend => if forceAppend then "|json" else ""
    queryParamsText := "" }

/-- A constructor of flow builders that returns `sampleFlow` with the start and end
parameters as query parameters. -/
def sampleNewFlow (_ : Unit) (start end_ _limit _reporter : String) : FlowQueryBuilder :=
  { sampleFlow with queryParamsText := "&start=" ++ start ++ "&end=" ++ end_ }

/-- A builder as `NewTopologyQuery` returns it for start 1000, end 1300, limit 50,
function avg and type packets. -/
def sampleTopologyQuery : TopologyQueryBuilder :=
  { FlowQueryBuilder := sampleNewFlow () "1000" "1300" "50" ""
    topology :=
      { limit := "50"
        timeRange := "300"
        metricFunction := "avg_over_time"
        dataField := "Packets" } }

/-- The text `Build` writes before the place of the unwrap clause: URL prefix, top-K
header, metric function, label selector, line filters and JSON filters. -/
def queryBeforeUnwrap (q : TopologyQueryBuilder) : String :=
  q.FlowQueryBuilder.urlText ++ "topk(" ++ q.topology.limit ++ ",sum by(" ++ topologyMetrics
    ++ ") (" ++ q.topology.metricFunction ++ "(" ++ q.FlowQueryBuilder.labelsText
    ++ q.FlowQueryBuilder.lineFiltersText ++ q.FlowQueryBuilder.jsonText true

/-- The text `Build` writes after the range bracket: the query parameters and the step. -/
def queryAfterRange (q : TopologyQueryBuilder) : String :=
  q.FlowQueryBuilder.queryParamsText ++ "&step=60s"

/-! ## Go errors, HTTP and the Prometheus client library -/

/-- Prometheus `v1.Error`: the error type of the API client. -/
structure V1Error where
  Type_ : String
  Msg : String
  Detail : String
deriving DecidableEq, Repr

/-- Prometheus `v1.ErrClient`. -/
def ErrClient : String := "client_error"

/-- A Go `error` value: a `*v1.Error`, an error of another type that wraps nothing, or an
error made by `fmt.Errorf` with `%w`, which carries its message and wraps another. -/
inductive GoError where
  | prom (e : V1Error)
  | other (msg : String)
  | wrap (msg : String) (inner : GoError)
deriving DecidableEq, Repr

/-- Go `err.Error()`. -/
def GoError.Error : GoError → String
  | GoError.prom e => e.Type_ ++ ": " ++ e.Msg
  | GoError.other msg => msg
  | GoError.wrap msg _ => msg

/-- Go `errors.As(err, &promError)` for a target of type `*v1.Error`: the first error of
that type on the chain of wrapped errors. -/
def errorsAsV1 : GoError → Option V1Error
  | GoError.prom e => some e
  | GoError.other _ => none
  | GoError.wrap _ inner => errorsAsV1 inner

/-- Whether `substr` occurs in `s` starting at some position. -/
def containsChars : List Char → List Char → Bool
  | [], substr => substr.isEmpty
  | c :: cs, substr => substr.isPrefixOf (c :: cs) || containsChars cs substr

/-- Go `strings.Contains`.  The search is by characters; for a text of ASCII characters
such as "401" it finds what the search by bytes finds. -/
def stringsContains (s substr : String) : Bool := containsChars s.data substr.data

/-- Go `strings.HasPrefix`. -/
def stringsHasPrefix (s pre : String) : Bool := pre.data.isPrefixOf s.data

/-- Go `strings.TrimPrefix`. -/
def stringsTrimPrefix (s pre : String) : String :=
  if stringsHasPrefix s pre then String.mk (s.data.drop pre.data.length) else s

def StatusOK : Nat := 200

def StatusUnauthorized : Nat := 401

def StatusForbidden : Nat := 403

def StatusInternalServerError : Nat := 500

def StatusServiceUnavailable : Nat := 503

/-- Go `http.Header`: a map from canonical header names to their values; `none` is the nil
map. -/
abbrev Header := Option (List (String × List String))

/-- Go `http.Header.Get` for a key in canonical form: the first value of the key, or the
empty string. -/
def Header.Get (h : Header) (key : String) : String :=
  match h with
  | none => ""
  | some entries =>
    match entries.lookup key with
    | some (v :: _) => v
    | _ => ""

/-- Prometheus `model.SamplePair`: a timestamp in milliseconds and a sample value, the
value by the bits of its `float64`. -/
structure SamplePair where
  Timestamp : Int
  Value : Nat
deriving DecidableEq, Repr

/-- Prometheus `model.SampleStream`: a label set and its samples. -/
structure SampleStream where
  Metric : List (String × String)
  Values : List SamplePair
deriving DecidableEq, Repr

/-- Prometheus `model.Sample`, the element of a vector. -/
structure Sample where
  Metric : List (String × String)
  Value : Nat
  Timestamp : Int
deriving DecidableEq, Repr

/-- Prometheus `model.Value`, the interface a range query returns: nil, a `Matrix` (a slice
of pointers to sample streams, `none` being the nil pointer), a `Vector`, a `*Scalar` or a
`*String`. -/
inductive Value where
  | nil
  | matrix (m : List (Option SampleStream))
  | vector (v : List (Option Sample))
  | scalar (value : Nat) (timestamp : Int)
  | string (value : String) (timestamp : Int)
deriving DecidableEq, Repr

/-- Go `fmt.Sprintf("%T", v)` for a `model.Value`. -/
def Value.typeName : Value → String
  | Value.nil => "<nil>"
  | Value.matrix _ => "model.Matrix"
  | Value.vector _ => "model.Vector"
  | Value.scalar _ _ => "*model.Scalar"
  | Value.string _ _ => "*model.String"

/-- Prometheus `v1.Range`: start and end in Unix nanoseconds, step in nanoseconds. -/
structure Range where
  Start : Int
  End : Int
  Step : Int
deriving DecidableEq, Repr

/-- What `v1.API.QueryRange` returns: a value, warnings and an error (`none` for nil). -/
structure QueryRangeResult where
  result : Value
  warnings : List String
  err : Option GoError
deriving DecidableEq, Repr

/-- The call `v1.NewAPI(cl).QueryRange(ctx, promQL, range)` for a given client and context:
the backend's answer to a query. -/
abbrev QueryRangeAPI := String → Range → QueryRangeResult

/-- Go `http.RoundTripper` values that `NewClient` builds: nil, a transport given by the
five arguments it was made from, or a wrapper that adds an `Authorization` header of a
type and a secret and hands the request to another round tripper. -/
inductive RoundTripper where
  | nil
  | transport (timeout : Nat) (skipTLS : Bool) (caPath userCertPath userKeyPath : String)
  | authorizationCredentials (authType : String) (secret : String) (rt : RoundTripper)
deriving DecidableEq, Repr

/-- Modelled from the spec: `httpclient.NewTransport` belongs to package `httpclient`, which
is not among the sources; the spec has the TLS configuration (skip-verify flag, CA bundle
path) applied to the base transport, which is represented by the arguments of the call. -/
def NewTransport (timeout : Nat) (skipTLS : Bool) (caPath userCertPath userKeyPath : String) :
    RoundTripper :=
  RoundTripper.transport timeout skipTLS caPath userCertPath userKeyPath

/-- Prometheus `config.NewAuthorizationCredentialsRoundTripper`. -/
def NewAuthorizationCredentialsRoundTripper (authType : String) (secret : String)
    (rt : RoundTripper) : RoundTripper :=
  RoundTripper.authorizationCredentials authType secret rt

/-- Prometheus `api.Config`. -/
structure ApiConfig where
  Address : String
  RoundTripper : RoundTripper
deriving DecidableEq, Repr

/-! ## `pkg/prometheus/client.go` -/

/-- Modelled from the spec: `config.Prometheus` is declared in package `config`, which is
not among the sources; these are the fields `NewClient` reads (URL, timeout, TLS skip-verify
flag, CA bundle path, token forwarding flag, token-file path). -/
structure PrometheusConfig where
  URL : String
  Timeout : Nat
  SkipTLS : Bool
  CAPath : String
  ForwardUserToken : Bool
  TokenPath : String
deriving DecidableEq, Repr

/-- Modelled from the spec: `auth.AuthHeader` is declared in package `auth`, which is not
among the sources; the spec names the header `Authorization`. -/
def AuthHeader : String := "Authorization"

/-- Modelled from the spec: `Query` is declared in a file of package `prometheus` that is
not among the sources; `executeQueryRange` reads its compiled query and its range. -/
structure Query where
  PromQL : String
  Range : Range
deriving DecidableEq, Repr

/-- Modelled from the spec: `model.ResultTypeMatrix` is declared in package `model`, which
is not among the sources; the spec tags a response by its result kind, here matrix. -/
def ResultTypeMatrix : String := "matrix"

/-- Modelled from the spec: `model.QueryResponseData` is declared in package `model`, which
is not among the sources; `QueryMatrix` sets its result type and its result, a slice of
sample streams (`none` when unset). -/
structure QueryResponseData where
  ResultType : String
  Result : Option (List SampleStream)
deriving DecidableEq, Repr

/-- Modelled from the spec: `model.QueryResponse` is declared in package `model`, which is
not among the sources; `QueryMatrix` sets its data. -/
structure QueryResponse where
  Data : QueryResponseData
deriving DecidableEq, Repr

/-- The zero value `model.QueryResponse{}`. -/
def QueryResponse.empty : QueryResponse := { Data := { ResultType := "", Result := none } }

section client

variable {Client : Type}

/-- Go `NewClient`.  `ReadFile` is `os.ReadFile` on the file system of the call and
`apiNewClient` is Prometheus `api.NewClient`; logging is left out. -/
def NewClient (ReadFile : String → Except GoError String)
    (apiNewClient : ApiConfig → Except GoError Client)
    (cfg : PrometheusConfig) (requestHeader : Header) : Except GoError Client :=
  let maybeTLS := NewTransport cfg.Timeout cfg.SkipTLS cfg.CAPath "" ""
  let roundTripper : Except GoError RoundTripper :=
    if cfg.ForwardUserToken = true ∧ requestHeader ≠ none then
      let h := Header.Get requestHeader AuthHeader
      if h ≠ "" ∧ stringsHasPrefix h "Bearer " = true then
        let token := stringsTrimPrefix h "Bearer "
        Except.ok (NewAuthorizationCredentialsRoundTripper "Bearer" token maybeTLS)
      else
        Except.ok RoundTripper.nil
    else if cfg.TokenPath ≠ "" then
      match ReadFile cfg.TokenPath with
      | Except.error err =>
        Except.error
          (GoError.wrap
            ("failed to parse authorization path '" ++ cfg.TokenPath ++ "': " ++ err.Error)
            err)
      | Except.ok bytes =>
        Except.ok (NewAuthorizationCredentialsRoundTripper "Bearer" bytes maybeTLS)
    else
      Except.ok maybeTLS
  match roundTripper with
  | Except.error err => Except.error err
  | Except.ok roundTripper => apiNewClient { Address := cfg.URL, RoundTripper := roundTripper }

end client

/-- Go `executeQueryRange`: the value, the status code and the error it returns.  Logging
and the deferred observation of the call's code and duration are left out. -/
def executeQueryRange (api : QueryRangeAPI) (q : Query) : Value × Nat × Option GoError :=
  let r := api q.PromQL q.Range
  match r.err with
  | some err =>
    let code := StatusServiceUnavailable
    let code :=
      match errorsAsV1 err with
      | some promError =>
        if promError.Type_ = ErrClient ∧ stringsContains promError.Msg "401" = true then
          StatusUnauthorized
        else if promError.Type_ = ErrClient ∧ stringsContains promError.Msg "403" = true then
          StatusForbidden
        else code
      | none => code
    (Value.nil, code, some (GoError.wrap ("error from Prometheus query: " ++ err.Error) err))
  | none => (r.result, StatusOK, none)

/-- The loop of `QueryMatrix`: every pointer of the matrix is dereferenced and its stream
appended; dereferencing a nil pointer is a run-time panic, `none`. -/
def derefAppend : List (Option SampleStream) → List SampleStream → Option (List SampleStream)
  | [], convMatrix => some convMatrix
  | none :: _, _ => none
  | some stream :: rest, convMatrix => derefAppend rest (convMatrix ++ [stream])

/-- Go `QueryMatrix`: the response, the status code and the error it returns, or `none`
when the call panics.  Logging is left out. -/
def QueryMatrix (api : QueryRangeAPI) (q : Query) :
    Option (QueryResponse × Nat × Option GoError) :=
  let r := executeQueryRange api q
  let resp := r.1
  let code := r.2.1
  let err := r.2.2
  if err ≠ none then some (QueryResponse.empty, code, err)
  else
    match resp with
    | Value.matrix m =>
      match derefAppend m [] with
      | none => none
      | some convMatrix =>
        some ({ Data := { ResultType := ResultTypeMatrix, Result := some convMatrix } },
          code, none)
    | other =>
      some (QueryResponse.empty, StatusInternalServerError,
        some (GoError.other ("QueryMatrix: wrong return type: " ++ other.typeName)))

/-! ## `pkg/handler/loki.go` -/

/-- A Go `map[string]string`: the value of each key that is present. -/
abbrev StringMap := String → Option String

/-- Go `getLokiError`.  `jsonUnmarshal` is `json.Unmarshal(resp, &f)` for a
`map[string]string` `f`: an error, or the map `f` holds afterwards. -/
def getLokiError (jsonUnmarshal : List UInt8 → Except String StringMap)
    (resp : List UInt8) (code : Int) : String :=
  match jsonUnmarshal resp with
  | Except.error _ =>
    "Unknown error from Loki - cannot unmarshal (code: " ++ FormatInt code ++ ")"
  | Except.ok f =>
    match f "message" with
    | none => "Unknown error from Loki - no message found (code: " ++ FormatInt code ++ ")"
    | some message => "Error from Loki (code: " ++ FormatInt code ++ "): " ++ message

/-! ## Sample inputs -/

/-- The transport `NewClient` builds from a configuration before it chooses the
authentication. -/
def baseTransport (cfg : PrometheusConfig) : RoundTripper :=
  NewTransport cfg.Timeout cfg.SkipTLS cfg.CAPath "" ""

/-- A configuration with token forwarding and a token file. -/
def sampleForwardConfig : PrometheusConfig :=
  { URL := "https://prometheus:9091"
    Timeout := 30
    SkipTLS := false
    CAPath := "/var/run/ca.crt"
    ForwardUserToken := true
    TokenPath := "/var/run/secrets/token" }

/-- A configuration with a token file and no token forwarding. -/
def sampleTokenFileConfig : PrometheusConfig :=
  { sampleForwardConfig with ForwardUserToken := false }

/-- A file system that holds one token file. -/
def sampleReadFile (path : String) : Except GoError String :=
  if path = "/var/run/secrets/token" then Except.ok "filetoken"
  else Except.error (GoError.other ("open " ++ path ++ ": no such file or directory"))

/-- An `api.NewClient` whose client is the configuration it was given. -/
def recordingNewClient (c : ApiConfig) : Except GoError ApiConfig := Except.ok c

/-- A backend that refuses a query with HTTP status 401, as the API client reports it. -/
def sampleUnauthorizedAPI : QueryRangeAPI := fun _ _ =>
  { result := Value.nil
    warnings := []
    err := some (GoError.prom { Type_ := ErrClient, Msg := "client error: 401", Detail := "" }) }

/-- Two sample streams. -/
def sampleSeries : List SampleStream :=
  [ { Metric := [("SrcK8S_Namespace", "default")], Values := [⟨1000, 7⟩, ⟨1060, 9⟩] },
    { Metric := [("SrcK8S_Namespace", "netobserv")], Values := [⟨1000, 3⟩] } ]

/-- A backend that answers with the matrix of `sampleSeries` and a warning. -/
def sampleMatrixAPI : QueryRangeAPI := fun _ _ =>
  { result := Value.matrix (sampleSeries.map some)
    warnings := ["partial response"]
    err := none }

/-- A backend whose matrix has a nil pointer as its first entry, as the API client decodes
a result list that starts with `null`. -/
def sampleNilEntryAPI : QueryRangeAPI := fun _ _ =>
  { result :=
      Value.matrix
        [none, some { Metric := [("SrcK8S_Namespace", "default")], Values := [⟨1000, 7⟩] }]
    warnings := []
    err := none }

/-- A query. -/
def sampleQuery : Query :=
  { PromQL := "sum(rate(netobserv_bytes_total[1m]))", Range := ⟨0, 300000000000, 60000000000⟩ }

/-- The failure body of the log backend, a JSON object with the one key `message` and the
value `too many outstanding requests`, by the codes of its characters. -/
def sampleBody : List UInt8 :=
  "\x7b\"message\":\"too many outstanding requests\"\x7d".data.map
    (fun c => UInt8.ofNat c.toNat)

/-- A body that is no JSON document. -/
def sampleHtmlBody : List UInt8 :=
  "<html>Bad Gateway</html>".data.map (fun c => UInt8.ofNat c.toNat)

/-- What `json.Unmarshal` answers on the two sample bodies: the map with the one key
`message` for `sampleBody`, a syntax error for the other. -/
def sampleUnmarshal (resp : List UInt8) : Except String StringMap :=
  if resp = sampleBody then
    Except.ok (fun key => if key = "message" then some "too many outstanding requests" else none)
  else Except.error "invalid character '<' looking for beginning of value"

/-! ## Theorems: Go runtime -/

theorem len_eq_zero_iff (s : String) : len s = 0 ↔ s = "" := by
  cases s with
  | mk cs =>
    cases cs with
    | nil => simp [len, String.utf8ByteSize, String.utf8ByteSize.go]
    | cons c cs =>
      have hc := Char.utf8Size_pos c
      simp only [len, String.utf8ByteSize, String.utf8ByteSize.go]
      constructor
      · intro h
        omega
      · intro h
        have hd := congrArg String.data h
        simp at hd

theorem len_pos_iff (s : String) : len s > 0 ↔ s ≠ "" := by
  rw [← not_iff_not]
  simp [len_eq_zero_iff]

theorem wrapInt64_of_fits (x : Int) (hlo : minInt64 ≤ x) (hhi : x ≤ maxInt64) :
    wrapInt64 x = x := by
  unfold wrapInt64
  unfold minInt64 at hlo
  unfold maxInt64 at hhi
  omega

/-! ## Theorems: `NewTopologyQuery` -/

section topology

variable {Config : Type}
variable (nfb : Config → String → String → String → String → FlowQueryBuilder)

/-- What a builder returned by `NewTopologyQuery` holds, apart from its time range. -/
theorem NewTopologyQuery_ok_fields (cfg : Config)
    (start end_ limit metricFunction metricType reporter : String) (q : TopologyQueryBuilder)
    (h : NewTopologyQuery nfb cfg start end_ limit metricFunction metricType reporter
      = Except.ok q) :
    q.FlowQueryBuilder = nfb cfg start end_ limit reporter ∧
    q.topology.limit = (if len limit = 0 then topologyDefaultLimit else limit) ∧
    q.topology.metricFunction =
      (if metricFunction = "avg" then "avg_over_time"
       else if metricFunction = "max" then "max_over_time"
       else if metricFunction = "rate" then "rate"
       else "sum_over_time") ∧
    q.topology.dataField = (if metricType = "packets" then "Packets" else "Bytes") := by
  unfold NewTopologyQuery at h
  simp only at h
  split at h
  · cases h
  · cases h
    simp

/-- The time range of `NewTopologyQuery` when the difference of the two bounds fits in
`int64`: the rendering of `e - s` when it is positive, the default otherwise; and the
default when a bound is missing. -/
theorem NewTopologyQuery_timeRange_within_int64 (cfg : Config)
    (start end_ limit metricFunction metricType reporter : String) :
    (∀ s e : Int, start ≠ "" → end_ ≠ "" →
      ParseInt start = (s, none) → ParseInt end_ = (e, none) →
      minInt64 ≤ e - s → e - s ≤ maxInt64 →
      ∃ q, NewTopologyQuery nfb cfg start end_ limit metricFunction metricType reporter
          = Except.ok q ∧
        q.topology.timeRange = (if s < e then FormatInt (e - s) else "300")) ∧
    (start = "" ∨ end_ = "" →
      ∃ q, NewTopologyQuery nfb cfg start end_ limit metricFunction metricType reporter
          = Except.ok q ∧
        q.topology.timeRange = "300") := by
  constructor
  · intro s e hs0 he0 hs he hlo hhi
    have h1 : len start > 0 ∧ len end_ > 0 := ⟨(len_pos_iff _).2 hs0, (len_pos_iff _).2 he0⟩
    have hw := wrapInt64_of_fits (e - s) hlo hhi
    unfold NewTopologyQuery
    simp only [h1, hs, he, hw, and_self, if_true, ne_eq, not_true_eq_false, if_false]
    by_cases hlt : s < e
    · have hpos : e - s > 0 := by omega
      simp [hpos, hlt]
    · have hpos : ¬ (e - s > 0) := by omega
      simp [hpos, hlt, topologyDefaultRange]
  · intro h
    have h1 : ¬ (len start > 0 ∧ len end_ > 0) := by
      rintro ⟨ha, hb⟩
      rcases h with h | h
      · exact (len_pos_iff _).1 ha h
      · exact (len_pos_iff _).1 hb h
    unfold NewTopologyQuery
    simp [h1, topologyDefaultRange]

/-- C1 (evaluation at the failing inputs): start "-1" and end "9223372036854775807" both
parse, and end minus start is 9223372036854775808, yet the compiled time range is the
default "300"; start "9223372036854775807" and end "-2" both parse with end below start,
yet the compiled time range is "9223372036854775807". -/
theorem NewTopologyQuery_timeRange_overflow :
    ParseInt "-1" = (-1, none) ∧
    ParseInt "9223372036854775807" = (9223372036854775807, none) ∧
    ParseInt "-2" = (-2, none) ∧
    FormatInt (9223372036854775807 - (-1)) = "9223372036854775808" ∧
    (NewTopologyQuery sampleNewFlow () "-1" "9223372036854775807" "" "" "" "").map
        (fun q => q.topology.timeRange) = Except.ok "300" ∧
    (NewTopologyQuery sampleNewFlow () "9223372036854775807" "-2" "" "" "" "").map
        (fun q => q.topology.timeRange) = Except.ok "9223372036854775807" := by
  refine ⟨by decide, by decide, by decide, by decide, by rfl, by rfl⟩

/-- C2 (counterexample): with start "abc", which does not parse, and no end, the call
returns a builder whose time range is the default "300". -/
theorem NewTopologyQuery_malformed_start_defaulted :
    "abc" ≠ "" ∧ (ParseInt "abc").2 = some NumError.ErrSyntax ∧
    (NewTopologyQuery sampleNewFlow () "abc" "" "" "" "" "").map (fun q => q.topology)
      = Except.ok
          { limit := "100", timeRange := "300", metricFunction := "sum_over_time",
            dataField := "Bytes" } := by
  refine ⟨by decide, by decide, by rfl⟩

/-- C2 (amended): when start and end are both non-empty and one of them does not parse as
a 64-bit integer, `NewTopologyQuery` returns an error, about start when start does not
parse and about end otherwise, and no builder. -/
theorem NewTopologyQuery_rejects_malformed_bounds (cfg : Config)
    (start end_ limit metricFunction metricType reporter : String)
    (hs0 : start ≠ "") (he0 : end_ ≠ "")
    (hbad : (ParseInt start).2 ≠ none ∨ (ParseInt end_).2 ≠ none) :
    NewTopologyQuery nfb cfg start end_ limit metricFunction metricType reporter
      = Except.error
          (if (ParseInt start).2 ≠ none then "can't parse start param: " ++ start
           else "can't parse end param: " ++ end_) := by
  have h1 : len start > 0 ∧ len end_ > 0 := ⟨(len_pos_iff _).2 hs0, (len_pos_iff _).2 he0⟩
  unfold NewTopologyQuery
  by_cases hs : (ParseInt start).2 = none
  · have he : (ParseInt end_).2 ≠ none := by
      rcases hbad with h | h
      · exact absurd hs h
      · exact h
    simp [h1, hs, he]
  · simp [h1, hs]

end topology

/-- C2 (witness): start "abc" with end "1300" is rejected with the error about start. -/
theorem NewTopologyQuery_rejects_malformed_bounds_witness :
    "abc" ≠ "" ∧ "1300" ≠ "" ∧ (ParseInt "abc").2 ≠ none ∧
    NewTopologyQuery sampleNewFlow () "abc" "1300" "" "" "" ""
      = Except.error "can't parse start param: abc" :=
  ⟨by decide, by decide, by decide,
    NewTopologyQuery_rejects_malformed_bounds sampleNewFlow () "abc" "1300" "" "" "" ""
      (by decide) (by decide) (Or.inl (by decide))⟩

/-! ## Theorems: `Build` -/

/-- The text `Build` returns, piece by piece. -/
theorem Build_eq (q : TopologyQueryBuilder) :
    q.Build = queryBeforeUnwrap q
      ++ (if q.topology.metricFunction ≠ "rate" ∧ q.topology.dataField ≠ "" then
            "|unwrap " ++ q.topology.dataField ++ "|__error__=\"\""
          else "")
      ++ "[" ++ q.topology.timeRange ++ "s])))" ++ queryAfterRange q := by
  have hpush : ∀ t : String, t.push '[' = t ++ "[" := fun t => rfl
  unfold TopologyQueryBuilder.Build queryBeforeUnwrap queryAfterRange
  by_cases hc : q.topology.metricFunction ≠ "rate" ∧ q.topology.dataField ≠ ""
  · have hc2 : q.topology.metricFunction ≠ "rate" ∧ len q.topology.dataField > 0 :=
      ⟨hc.1, (len_pos_iff _).2 hc.2⟩
    simp only [if_pos hc, if_pos hc2, Builder.String, Builder.WriteString,
      Builder.WriteRune, FlowQueryBuilder.createStringBuilderURL,
      FlowQueryBuilder.appendLabels, FlowQueryBuilder.appendLineFilters,
      FlowQueryBuilder.appendJSON, FlowQueryBuilder.appendQueryParams, hpush,
      String.append_assoc]
  · have hc2 : ¬ (q.topology.metricFunction ≠ "rate" ∧ len q.topology.dataField > 0) := by
      rintro ⟨ha, hb⟩
      exact hc ⟨ha, (len_pos_iff _).1 hb⟩
    simp only [if_neg hc, if_neg hc2, Builder.String, Builder.WriteString,
      Builder.WriteRune, FlowQueryBuilder.createStringBuilderURL,
      FlowQueryBuilder.appendLabels, FlowQueryBuilder.appendLineFilters,
      FlowQueryBuilder.appendJSON, FlowQueryBuilder.appendQueryParams, hpush,
      String.append_assoc, String.append_empty, String.empty_append]

section topologyBuild

variable {Config : Type}
variable (nfb : Config → String → String → String → String → FlowQueryBuilder)

/-- C3: for a builder returned by `NewTopologyQuery`, when the function parameter is
"rate" `Build` writes nothing between the JSON filters and the range bracket; for every
other function value it writes there exactly the clause `|unwrap F|__error__=""`, with F
`Packets` when the type parameter is "packets" and `Bytes` otherwise. -/
theorem Build_unwrap_clause (cfg : Config)
    (start end_ limit metricFunction metricType reporter : String) (q : TopologyQueryBuilder)
    (h : NewTopologyQuery nfb cfg start end_ limit metricFunction metricType reporter
      = Except.ok q) :
    (metricFunction = "rate" →
      q.Build = queryBeforeUnwrap q
        ++ "[" ++ q.topology.timeRange ++ "s])))" ++ queryAfterRange q) ∧
    (metricFunction ≠ "rate" →
      q.Build = queryBeforeUnwrap q
        ++ "|unwrap " ++ (if metricType = "packets" then "Packets" else "Bytes")
        ++ "|__error__=\"\""
        ++ "[" ++ q.topology.timeRange ++ "s])))" ++ queryAfterRange q) := by
  obtain ⟨-, -, hf, ht⟩ :=
    NewTopologyQuery_ok_fields nfb cfg start end_ limit metricFunction metricType reporter q h
  have hfield : q.topology.dataField ≠ "" := by
    rw [ht]
    split <;> decide
  constructor
  · intro hr
    have hrate : q.topology.metricFunction = "rate" := by
      rw [hf, hr]
      decide
    rw [Build_eq, if_neg (fun hc => hc.1 hrate), String.append_empty]
  · intro hr
    have hrate : q.topology.metricFunction ≠ "rate" := by
      rw [hf]
      split_ifs <;> decide
    rw [Build_eq, if_pos ⟨hrate, hfield⟩, ht]
    simp only [String.append_assoc]

/-- C9: for a builder returned by `NewTopologyQuery`, function "avg" compiles to
`avg_over_time`, "max" to `max_over_time`, "rate" to `rate` and every other value to
`sum_over_time`; and an error the call returns is returned whatever the function
parameter is. -/
theorem NewTopologyQuery_metricFunction (cfg : Config)
    (start end_ limit metricFunction metricType reporter : String) :
    (∀ q, NewTopologyQuery nfb cfg start end_ limit metricFunction metricType reporter
        = Except.ok q →
      (metricFunction = "avg" → q.topology.metricFunction = "avg_over_time") ∧
      (metricFunction = "max" → q.topology.metricFunction = "max_over_time") ∧
      (metricFunction = "rate" → q.topology.metricFunction = "rate") ∧
      (metricFunction ≠ "avg" → metricFunction ≠ "max" → metricFunction ≠ "rate" →
        q.topology.metricFunction = "sum_over_time")) ∧
    (∀ err, NewTopologyQuery nfb cfg start end_ limit metricFunction metricType reporter
        = Except.error err →
      ∀ otherFunction,
        NewTopologyQuery nfb cfg start end_ limit otherFunction metricType reporter
          = Except.error err) ∧
    (∀ q, NewTopologyQuery nfb cfg start end_ limit metricFunction metricType reporter
        = Except.ok q →
      ∀ otherFunction, ∃ q2,
        NewTopologyQuery nfb cfg start end_ limit otherFunction metricType reporter
          = Except.ok q2) := by
  refine ⟨?_, ?_, ?_⟩
  · intro q h
    obtain ⟨-, -, hf, -⟩ :=
      NewTopologyQuery_ok_fields nfb cfg start end_ limit metricFunction metricType reporter
        q h
    refine ⟨?_, ?_, ?_, ?_⟩
    · intro hm
      rw [hf, if_pos hm]
    · intro hm
      rw [hf, hm]
      decide
    · intro hm
      rw [hf, hm]
      decide
    · intro h1 h2 h3
      rw [hf, if_neg h1, if_neg h2, if_neg h3]
  · intro err h otherFunction
    unfold NewTopologyQuery at h ⊢
    simp only at h ⊢
    split at h
    · exact h
    · cases h
  · intro q h otherFunction
    unfold NewTopologyQuery at h ⊢
    simp only at h ⊢
    split at h
    · cases h
    · exact ⟨_, rfl⟩

/-- C10: for a builder returned by `NewTopologyQuery`, the compiled limit is "100" when
the limit parameter is empty and the parameter itself otherwise, and `Build` writes that
value between `topk(` and `,sum by(`, right after the URL prefix. -/
theorem NewTopologyQuery_limit (cfg : Config)
    (start end_ limit metricFunction metricType reporter : String) (q : TopologyQueryBuilder)
    (h : NewTopologyQuery nfb cfg start end_ limit metricFunction metricType reporter
      = Except.ok q) :
    (limit = "" → q.topology.limit = "100") ∧
    (limit ≠ "" → q.topology.limit = limit) ∧
    (∃ rest, q.Build = q.FlowQueryBuilder.createStringBuilderURL.String
        ++ "topk(" ++ (if limit = "" then "100" else limit) ++ ",sum by(" ++ rest) := by
  obtain ⟨-, hl, -, -⟩ :=
    NewTopologyQuery_ok_fields nfb cfg start end_ limit metricFunction metricType reporter q h
  have hlim : q.topology.limit = (if limit = "" then "100" else limit) := by
    rw [hl]
    by_cases he : limit = ""
    · rw [if_pos ((len_eq_zero_iff _).2 he), if_pos he]
      rfl
    · rw [if_neg (fun hz => he ((len_eq_zero_iff _).1 hz)), if_neg he]
  refine ⟨?_, ?_, ?_⟩
  · intro he
    rw [hlim, if_pos he]
  · intro he
    rw [hlim, if_neg he]
  · rw [← hlim, Build_eq]
    unfold queryBeforeUnwrap
    simp only [String.append_assoc, FlowQueryBuilder.createStringBuilderURL, Builder.String]
    exact ⟨_, rfl⟩

/-- C4: `Build` returns the URL prefix, then `topk(`, the limit, `,sum by(`, the grouping
keys, `) (`, the metric function, `(`, the label selector, the line filters, the JSON
filters, the optional unwrap clause, `[`, the time range, `s])))`, the query parameters
and `&step=60s`; the grouping keys are fourteen comma-separated fields; the text always
ends with `&step=60s`; and start "1000", end "1300", limit "50", function "avg", type
"packets" compile to `topk(50,` ... `avg_over_time(` ...
`|unwrap Packets|__error__=""[300s])))` ... `&step=60s`. -/
theorem Build_shape (q : TopologyQueryBuilder) (cfg : Config) (reporter : String) :
    q.Build = q.FlowQueryBuilder.createStringBuilderURL.String
        ++ "topk(" ++ q.topology.limit ++ ",sum by(" ++ topologyMetrics ++ ") ("
        ++ q.topology.metricFunction ++ "("
        ++ q.FlowQueryBuilder.labelsText
        ++ q.FlowQueryBuilder.lineFiltersText
        ++ q.FlowQueryBuilder.jsonText true
        ++ (if q.topology.metricFunction ≠ "rate" ∧ q.topology.dataField ≠ "" then
              "|unwrap " ++ q.topology.dataField ++ "|__error__=\"\""
            else "")
        ++ "[" ++ q.topology.timeRange ++ "s])))"
        ++ q.FlowQueryBuilder.queryParamsText ++ "&step=60s" ∧
    topologyMetrics = String.intercalate "," topologyMetricsFields ∧
    topologyMetricsFields.length = 14 ∧
    (∃ text, q.Build = text ++ "&step=60s") ∧
    (∃ q0, NewTopologyQuery nfb cfg "1000" "1300" "50" "avg" "packets" reporter
        = Except.ok q0 ∧
      q0.Build = (nfb cfg "1000" "1300" "50" reporter).urlText
        ++ "topk(50,sum by(" ++ topologyMetrics ++ ") (avg_over_time("
        ++ (nfb cfg "1000" "1300" "50" reporter).labelsText
        ++ (nfb cfg "1000" "1300" "50" reporter).lineFiltersText
        ++ (nfb cfg "1000" "1300" "50" reporter).jsonText true
        ++ "|unwrap Packets|__error__=\"\"[300s])))"
        ++ (nfb cfg "1000" "1300" "50" reporter).queryParamsText ++ "&step=60s") ∧
    sampleTopologyQuery.Build =
      "http://loki:3100/loki/api/v1/query_range?query=topk(50,sum by(SrcK8S_Name,SrcK8S_Type,SrcK8S_OwnerName,SrcK8S_OwnerType,SrcK8S_Namespace,SrcAddr,SrcK8S_HostIP,DstK8S_Name,DstK8S_Type,DstK8S_OwnerName,DstK8S_OwnerType,DstK8S_Namespace,DstAddr,DstK8S_HostIP) (avg_over_time(\x7bapp=\"netobserv-flowcollector\"\x7d|json|unwrap Packets|__error__=\"\"[300s])))&start=1000&end=1300&step=60s" := by
  have hshape : q.Build = q.FlowQueryBuilder.createStringBuilderURL.String
        ++ "topk(" ++ q.topology.limit ++ ",sum by(" ++ topologyMetrics ++ ") ("
        ++ q.topology.metricFunction ++ "("
        ++ q.FlowQueryBuilder.labelsText
        ++ q.FlowQueryBuilder.lineFiltersText
        ++ q.FlowQueryBuilder.jsonText true
        ++ (if q.topology.metricFunction ≠ "rate" ∧ q.topology.dataField ≠ "" then
              "|unwrap " ++ q.topology.dataField ++ "|__error__=\"\""
            else "")
        ++ "[" ++ q.topology.timeRange ++ "s])))"
        ++ q.FlowQueryBuilder.queryParamsText ++ "&step=60s" := by
    rw [Build_eq]
    unfold queryBeforeUnwrap queryAfterRange
    simp only [String.append_assoc, FlowQueryBuilder.createStringBuilderURL, Builder.String]
  refine ⟨hshape, by rfl, by rfl, ⟨_, hshape⟩, ?_, by rfl⟩
  refine ⟨{ FlowQueryBuilder := nfb cfg "1000" "1300" "50" reporter,
            topology := { limit := "50", timeRange := "300",
                          metricFunction := "avg_over_time", dataField := "Packets" } },
    by rfl, ?_⟩
  rw [Build_eq]
  unfold queryBeforeUnwrap queryAfterRange
  rw [if_pos (show ("avg_over_time" : String) ≠ "rate" ∧ ("Packets" : String) ≠ "" from
    ⟨by decide, by decide⟩)]
  have e1 : ∀ r : String, "topk(" ++ ("50" ++ (",sum by(" ++ r)) = "topk(50,sum by(" ++ r := by
    intro r
    simp only [← String.append_assoc]
    rfl
  have e2 : ∀ r : String, ") (" ++ ("avg_over_time" ++ ("(" ++ r)) = ") (avg_over_time(" ++ r := by
    intro r
    simp only [← String.append_assoc]
    rfl
  have e3 : ∀ r : String,
      "|unwrap " ++ ("Packets" ++ ("|__error__=\"\"" ++ ("[" ++ ("300" ++ ("s])))" ++ r)))))
        = "|unwrap Packets|__error__=\"\"[300s])))" ++ r := by
    intro r
    simp only [← String.append_assoc]
    rfl
  simp only [String.append_assoc]
  rw [e1, e2, e3]

end topologyBuild

/-- C3 (witness): the builder of start 1000, end 1300, limit 50, function avg and type
packets has the clause `|unwrap Packets|__error__=""` right before its range bracket. -/
theorem Build_unwrap_clause_witness :
    NewTopologyQuery sampleNewFlow () "1000" "1300" "50" "avg" "packets" ""
      = Except.ok sampleTopologyQuery ∧
    ("avg" ≠ "rate" →
      sampleTopologyQuery.Build = queryBeforeUnwrap sampleTopologyQuery
        ++ "|unwrap " ++ (if "packets" = "packets" then "Packets" else "Bytes")
        ++ "|__error__=\"\""
        ++ "[" ++ sampleTopologyQuery.topology.timeRange ++ "s])))"
        ++ queryAfterRange sampleTopologyQuery) :=
  ⟨by rfl,
    (Build_unwrap_clause sampleNewFlow () "1000" "1300" "50" "avg" "packets" ""
      sampleTopologyQuery (by rfl)).2⟩

/-- C9 (witness): function avg compiles to `avg_over_time`. -/
theorem NewTopologyQuery_metricFunction_witness :
    NewTopologyQuery sampleNewFlow () "1000" "1300" "50" "avg" "packets" ""
      = Except.ok sampleTopologyQuery ∧
    sampleTopologyQuery.topology.metricFunction = "avg_over_time" :=
  ⟨by rfl,
    ((NewTopologyQuery_metricFunction sampleNewFlow () "1000" "1300" "50" "avg" "packets"
      "").1 sampleTopologyQuery (by rfl)).1 (by rfl)⟩

/-- C10 (witness): limit 50 is compiled verbatim. -/
theorem NewTopologyQuery_limit_witness :
    NewTopologyQuery sampleNewFlow () "1000" "1300" "50" "avg" "packets" ""
      = Except.ok sampleTopologyQuery ∧
    "50" ≠ "" ∧ sampleTopologyQuery.topology.limit = "50" :=
  ⟨by rfl, by decide,
    (NewTopologyQuery_limit sampleNewFlow () "1000" "1300" "50" "avg" "packets" ""
      sampleTopologyQuery (by rfl)).2.1 (by decide)⟩

/-! ## Theorems: `pkg/prometheus/client.go` -/

/-- C5: `executeQueryRange` returns status 401 when the call fails with a `v1.Error` of
type `ErrClient` whose message contains "401"; 403 when it fails with one whose message
contains "403" and not "401"; 503 on every other failure; on every failure a nil result and
a non-nil error; on success the backend's result, status 200 and a nil error; and what it
returns does not depend on the warnings. -/
theorem executeQueryRange_status (api : QueryRangeAPI) (q : Query) :
    (∀ err promError, (api q.PromQL q.Range).err = some err →
      errorsAsV1 err = some promError → promError.Type_ = ErrClient →
      stringsContains promError.Msg "401" = true →
      (executeQueryRange api q).2.1 = 401) ∧
    (∀ err promError, (api q.PromQL q.Range).err = some err →
      errorsAsV1 err = some promError → promError.Type_ = ErrClient →
      stringsContains promError.Msg "401" = false →
      stringsContains promError.Msg "403" = true →
      (executeQueryRange api q).2.1 = 403) ∧
    (∀ err, (api q.PromQL q.Range).err = some err →
      (∀ promError, errorsAsV1 err = some promError →
        ¬ (promError.Type_ = ErrClient ∧
          (stringsContains promError.Msg "401" = true
            ∨ stringsContains promError.Msg "403" = true))) →
      (executeQueryRange api q).2.1 = 503) ∧
    (∀ err, (api q.PromQL q.Range).err = some err →
      (executeQueryRange api q).1 = Value.nil ∧ (executeQueryRange api q).2.2 ≠ none) ∧
    ((api q.PromQL q.Range).err = none →
      executeQueryRange api q = ((api q.PromQL q.Range).result, 200, none)) ∧
    (∀ api2 : QueryRangeAPI,
      (api2 q.PromQL q.Range).result = (api q.PromQL q.Range).result →
      (api2 q.PromQL q.Range).err = (api q.PromQL q.Range).err →
      executeQueryRange api2 q = executeQueryRange api q) := by
  refine ⟨?_, ?_, ?_, ?_, ?_, ?_⟩
  · intro err promError herr has htype h401
    simp [executeQueryRange, herr, has, htype, h401, StatusUnauthorized]
  · intro err promError herr has htype h401 h403
    simp [executeQueryRange, herr, has, htype, h401, h403, StatusForbidden]
  · intro err herr hother
    unfold executeQueryRange
    simp only [herr]
    cases has : errorsAsV1 err with
    | none => simp [StatusServiceUnavailable]
    | some promError =>
      have hno := hother promError has
      by_cases htype : promError.Type_ = ErrClient
      · have h401 : stringsContains promError.Msg "401" ≠ true :=
          fun hc => hno ⟨htype, Or.inl hc⟩
        have h403 : stringsContains promError.Msg "403" ≠ true :=
          fun hc => hno ⟨htype, Or.inr hc⟩
        simp [htype, h401, h403, StatusServiceUnavailable]
      · simp [htype, StatusServiceUnavailable]
  · intro err herr
    simp [executeQueryRange, herr]
  · intro herr
    simp [executeQueryRange, herr, StatusOK]
  · intro api2 hres herr
    unfold executeQueryRange
    simp only [hres, herr]

/-- C5 (witness): a backend refusal reported as "client error: 401" gives status 401, and
a matrix answer with a warning gives status 200. -/
theorem executeQueryRange_status_witness :
    (sampleUnauthorizedAPI sampleQuery.PromQL sampleQuery.Range).err
      = some (GoError.prom { Type_ := ErrClient, Msg := "client error: 401", Detail := "" }) ∧
    stringsContains "client error: 401" "401" = true ∧
    (executeQueryRange sampleUnauthorizedAPI sampleQuery).2.1 = 401 ∧
    (sampleMatrixAPI sampleQuery.PromQL sampleQuery.Range).err = none ∧
    executeQueryRange sampleMatrixAPI sampleQuery
      = (Value.matrix (sampleSeries.map some), 200, none) :=
  ⟨by rfl, by decide,
    (executeQueryRange_status sampleUnauthorizedAPI sampleQuery).1 _
      { Type_ := ErrClient, Msg := "client error: 401", Detail := "" }
      (by rfl) (by rfl) (by rfl) (by decide),
    by rfl,
    (executeQueryRange_status sampleMatrixAPI sampleQuery).2.2.2.2.1 (by rfl)⟩

/-- The loop of `QueryMatrix` on pointers to the streams `series` appends them in order. -/
theorem derefAppend_map_some (series acc : List SampleStream) :
    derefAppend (series.map some) acc = some (acc ++ series) := by
  induction series generalizing acc with
  | nil => simp [derefAppend]
  | cons stream rest ih =>
    simp only [List.map_cons, derefAppend]
    rw [ih]
    simp

/-- A matrix without nil entries is a list of pointers to streams. -/
theorem exists_series_of_no_nil (m : List (Option SampleStream))
    (h : ∀ p ∈ m, p ≠ none) : ∃ series : List SampleStream, m = series.map some := by
  induction m with
  | nil => exact ⟨[], rfl⟩
  | cons p rest ih =>
    obtain ⟨series, hseries⟩ := ih (fun x hx => h x (List.mem_cons_of_mem _ hx))
    cases p with
    | none => exact absurd rfl (h none (List.mem_cons_self _ _))
    | some stream => exact ⟨stream :: series, by rw [hseries]; rfl⟩

/-- C8 (amended): when the backend call succeeds with a matrix `m` whose entries all point
to a stream, `QueryMatrix` returns a response of result type matrix whose series list is as long
as `m` and has at every index the stream the entry of `m` at that index points to, with
status 200 and no error; when the call succeeds with a value that is not a matrix,
`QueryMatrix` returns the empty response, status 500 and an error. -/
theorem QueryMatrix_matrix (api : QueryRangeAPI) (q : Query) :
    (∀ m : List (Option SampleStream), (api q.PromQL q.Range).err = none →
      (api q.PromQL q.Range).result = Value.matrix m →
      (∀ p ∈ m, p ≠ none) →
      ∃ series : List SampleStream,
        QueryMatrix api q
          = some ({ Data := { ResultType := ResultTypeMatrix, Result := some series } },
              200, none) ∧
        series.length = m.length ∧
        (∀ i : Nat, m[i]? = (series[i]?).map some)) ∧
    ((api q.PromQL q.Range).err = none →
      (∀ m, (api q.PromQL q.Range).result ≠ Value.matrix m) →
      QueryMatrix api q
        = some (QueryResponse.empty, 500,
            some (GoError.other ("QueryMatrix: wrong return type: "
              ++ (api q.PromQL q.Range).result.typeName)))) := by
  constructor
  · intro m herr hres hnil
    obtain ⟨series, hseries⟩ := exists_series_of_no_nil m hnil
    subst hseries
    refine ⟨series, ?_, by simp, by simp⟩
    unfold QueryMatrix
    simp [executeQueryRange, herr, hres, derefAppend_map_some, StatusOK]
  · intro herr hres
    unfold QueryMatrix
    simp only [executeQueryRange, herr]
    cases hv : (api q.PromQL q.Range).result with
    | matrix m => exact absurd hv (hres m)
    | nil => simp [StatusInternalServerError]
    | vector v => simp [StatusInternalServerError]
    | scalar v t => simp [StatusInternalServerError]
    | string v t => simp [StatusInternalServerError]

/-- C8 (counterexample): the backend call succeeds with a matrix of two entries whose
first entry is a nil pointer; `QueryMatrix` dereferences it and panics, so it returns no
response, no status and no error. -/
theorem QueryMatrix_nil_entry_panics :
    (sampleNilEntryAPI sampleQuery.PromQL sampleQuery.Range).err = none ∧
    (sampleNilEntryAPI sampleQuery.PromQL sampleQuery.Range).result
      = Value.matrix
          [none, some { Metric := [("SrcK8S_Namespace", "default")], Values := [⟨1000, 7⟩] }] ∧
    (executeQueryRange sampleNilEntryAPI sampleQuery).2.1 = 200 ∧
    QueryMatrix sampleNilEntryAPI sampleQuery = none ∧
    ¬ (∃ series : List SampleStream,
        QueryMatrix sampleNilEntryAPI sampleQuery
          = some ({ Data := { ResultType := ResultTypeMatrix, Result := some series } },
              200, none)) := by
  have hrun : QueryMatrix sampleNilEntryAPI sampleQuery = none := by rfl
  refine ⟨by rfl, by rfl, by rfl, hrun, ?_⟩
  rintro ⟨series, hseries⟩
  rw [hrun] at hseries
  cases hseries

/-- C8 (witness): the matrix of the two sample streams is returned stream by stream with
status 200. -/
theorem QueryMatrix_matrix_witness :
    (sampleMatrixAPI sampleQuery.PromQL sampleQuery.Range).err = none ∧
    (sampleMatrixAPI sampleQuery.PromQL sampleQuery.Range).result
      = Value.matrix (sampleSeries.map some) ∧
    (∀ p ∈ sampleSeries.map some, p ≠ none) ∧
    (∃ series : List SampleStream,
      QueryMatrix sampleMatrixAPI sampleQuery
        = some ({ Data := { ResultType := ResultTypeMatrix, Result := some series } },
            200, none) ∧
      series.length = (sampleSeries.map some).length ∧
      (∀ i : Nat, (sampleSeries.map some)[i]? = (series[i]?).map some)) :=
  ⟨by rfl, by rfl, by decide,
    (QueryMatrix_matrix sampleMatrixAPI sampleQuery).1 (sampleSeries.map some) (by rfl)
      (by rfl) (by decide)⟩

/-! ## Theorems: `NewClient` -/

theorem stringsHasPrefix_append (pre rest : String) :
    stringsHasPrefix (pre ++ rest) pre = true := by
  unfold stringsHasPrefix
  rw [String.data_append, List.isPrefixOf_iff_prefix]
  exact List.prefix_append _ _

theorem stringsTrimPrefix_append (pre rest : String) :
    stringsTrimPrefix (pre ++ rest) pre = rest := by
  unfold stringsTrimPrefix
  rw [if_pos (stringsHasPrefix_append pre rest), String.data_append, List.drop_left]

section client

variable {Client : Type}

/-- C6 (amended): (a) with token forwarding configured and a request whose
`Authorization` header is `Bearer <token>`, the round tripper handed to the client is the
base transport wrapped with that token; (b) with token forwarding not configured or no
request header map, and a token-file path configured, the file is read and the round
tripper is the base transport wrapped with the file's content, and a read failure makes
`NewClient` return an error and no client; (c) with token forwarding not configured or no
request header map, and no token-file path, the round tripper is the bare base transport;
and with token forwarding configured and a request header map present, neither the
token-file path nor the file system has any effect on the result. -/
theorem NewClient_auth_modes (ReadFile : String → Except GoError String)
    (apiNewClient : ApiConfig → Except GoError Client)
    (cfg : PrometheusConfig) (requestHeader : Header) :
    (∀ token, cfg.ForwardUserToken = true → requestHeader ≠ none →
      Header.Get requestHeader AuthHeader = "Bearer " ++ token →
      NewClient ReadFile apiNewClient cfg requestHeader
        = apiNewClient
            { Address := cfg.URL
              RoundTripper :=
                NewAuthorizationCredentialsRoundTripper "Bearer" token (baseTransport cfg) }) ∧
    (cfg.ForwardUserToken = false ∨ requestHeader = none → cfg.TokenPath ≠ "" →
      (∀ content, ReadFile cfg.TokenPath = Except.ok content →
        NewClient ReadFile apiNewClient cfg requestHeader
          = apiNewClient
              { Address := cfg.URL
                RoundTripper :=
                  NewAuthorizationCredentialsRoundTripper "Bearer" content
                    (baseTransport cfg) }) ∧
      (∀ err, ReadFile cfg.TokenPath = Except.error err →
        NewClient ReadFile apiNewClient cfg requestHeader
          = Except.error
              (GoError.wrap
                ("failed to parse authorization path '" ++ cfg.TokenPath ++ "': "
                  ++ err.Error)
                err))) ∧
    (cfg.ForwardUserToken = false ∨ requestHeader = none → cfg.TokenPath = "" →
      NewClient ReadFile apiNewClient cfg requestHeader
        = apiNewClient { Address := cfg.URL, RoundTripper := baseTransport cfg }) ∧
    (cfg.ForwardUserToken = true → requestHeader ≠ none →
      ∀ (ReadFile2 : String → Except GoError String) (path : String),
        NewClient ReadFile2 apiNewClient { cfg with TokenPath := path } requestHeader
          = NewClient ReadFile apiNewClient cfg requestHeader) := by
  refine ⟨?_, ?_, ?_, ?_⟩
  · intro token hfwd hhdr hget
    have hne : "Bearer " ++ token ≠ "" := by
      intro hc
      have hd := congrArg String.data hc
      rw [String.data_append] at hd
      simp at hd
    unfold NewClient baseTransport
    simp only [hfwd, hhdr, hget, hne, stringsHasPrefix_append, stringsTrimPrefix_append,
      ne_eq, not_false_eq_true, and_self, if_true]
  · intro hmode hpath
    have hcond : ¬ (cfg.ForwardUserToken = true ∧ requestHeader ≠ none) := by
      rintro ⟨h1, h2⟩
      rcases hmode with h | h
      · rw [h] at h1
        cases h1
      · exact h2 h
    constructor
    · intro content hread
      unfold NewClient baseTransport
      simp only [if_neg hcond, if_pos hpath, hread]
    · intro err hread
      unfold NewClient
      simp only [if_neg hcond, if_pos hpath, hread]
  · intro hmode hpath
    have hcond : ¬ (cfg.ForwardUserToken = true ∧ requestHeader ≠ none) := by
      rintro ⟨h1, h2⟩
      rcases hmode with h | h
      · rw [h] at h1
        cases h1
      · exact h2 h
    have hp : ¬ cfg.TokenPath ≠ "" := fun hc => hc hpath
    unfold NewClient baseTransport
    simp only [if_neg hcond, if_neg hp]
  · intro hfwd hhdr ReadFile2 path
    have hcond : cfg.ForwardUserToken = true ∧ requestHeader ≠ none := ⟨hfwd, hhdr⟩
    unfold NewClient
    simp only [if_pos hcond]

end client

/-- C6 (counterexample): with token forwarding configured, a request header map without
an `Authorization` header and a token-file path whose file reads "filetoken", the round
tripper handed to the client is nil: neither the base transport wrapped with the file's
content nor the base transport. -/
theorem NewClient_forwarding_without_bearer :
    sampleForwardConfig.ForwardUserToken = true ∧
    Header.Get (some []) AuthHeader = "" ∧
    sampleForwardConfig.TokenPath ≠ "" ∧
    sampleReadFile sampleForwardConfig.TokenPath = Except.ok "filetoken" ∧
    NewClient sampleReadFile recordingNewClient sampleForwardConfig (some [])
      = Except.ok { Address := "https://prometheus:9091", RoundTripper := RoundTripper.nil } ∧
    NewClient sampleReadFile recordingNewClient sampleForwardConfig (some [])
      ≠ recordingNewClient
          { Address := "https://prometheus:9091"
            RoundTripper :=
              NewAuthorizationCredentialsRoundTripper "Bearer" "filetoken"
                (baseTransport sampleForwardConfig) } ∧
    NewClient sampleReadFile recordingNewClient sampleForwardConfig (some [])
      ≠ recordingNewClient
          { Address := "https://prometheus:9091"
            RoundTripper := baseTransport sampleForwardConfig } := by
  have hrun : NewClient sampleReadFile recordingNewClient sampleForwardConfig (some [])
      = Except.ok { Address := "https://prometheus:9091", RoundTripper := RoundTripper.nil } := by
    rfl
  refine ⟨by rfl, by rfl, by decide, by rfl, hrun, ?_, ?_⟩
  · rw [hrun]
    intro hc
    cases hc
  · rw [hrun]
    intro hc
    cases hc

/-- C6 (witness): a forwarded bearer token wraps the base transport, and without token
forwarding the content of the token file does. -/
theorem NewClient_auth_modes_witness :
    sampleForwardConfig.ForwardUserToken = true ∧
    Header.Get (some [("Authorization", ["Bearer usertoken"])]) AuthHeader
      = "Bearer " ++ "usertoken" ∧
    NewClient sampleReadFile recordingNewClient sampleForwardConfig
        (some [("Authorization", ["Bearer usertoken"])])
      = recordingNewClient
          { Address := sampleForwardConfig.URL
            RoundTripper :=
              NewAuthorizationCredentialsRoundTripper "Bearer" "usertoken"
                (baseTransport sampleForwardConfig) } ∧
    sampleReadFile sampleTokenFileConfig.TokenPath = Except.ok "filetoken" ∧
    NewClient sampleReadFile recordingNewClient sampleTokenFileConfig
        (some [("Authorization", ["Bearer usertoken"])])
      = recordingNewClient
          { Address := sampleTokenFileConfig.URL
            RoundTripper :=
              NewAuthorizationCredentialsRoundTripper "Bearer" "filetoken"
                (baseTransport sampleTokenFileConfig) } :=
  ⟨by rfl, by decide,
    (NewClient_auth_modes sampleReadFile recordingNewClient sampleForwardConfig
      (some [("Authorization", ["Bearer usertoken"])])).1 "usertoken" (by rfl)
      (by simp) (by decide),
    by rfl,
    ((NewClient_auth_modes sampleReadFile recordingNewClient sampleTokenFileConfig
      (some [("Authorization", ["Bearer usertoken"])])).2.1 (Or.inl (by rfl))
      (by decide)).1 "filetoken" (by rfl)⟩

/-! ## Theorems: `getLokiError` -/

/-- C7: when the body decodes to a map that holds the key "message" with value m,
`getLokiError` returns "Error from Loki (code: c): m" with c in decimal; when the body does
not decode, or decodes to a map without the key "message", it returns a non-empty message
that contains c in decimal; and a body decoding to the one message "too many outstanding
requests" gives, with code 429, "Error from Loki (code: 429): too many outstanding
requests". -/
theorem getLokiError_message (jsonUnmarshal : List UInt8 → Except String StringMap)
    (resp : List UInt8) (code : Int) :
    (∀ f message, jsonUnmarshal resp = Except.ok f → f "message" = some message →
      getLokiError jsonUnmarshal resp code
        = "Error from Loki (code: " ++ FormatInt code ++ "): " ++ message) ∧
    ((∃ err, jsonUnmarshal resp = Except.error err)
        ∨ (∃ f, jsonUnmarshal resp = Except.ok f ∧ f "message" = none) →
      getLokiError jsonUnmarshal resp code ≠ "" ∧
      ∃ before after,
        getLokiError jsonUnmarshal resp code = before ++ FormatInt code ++ after) ∧
    (∀ f, jsonUnmarshal resp = Except.ok f →
      f "message" = some "too many outstanding requests" →
      getLokiError jsonUnmarshal resp 429
        = "Error from Loki (code: 429): too many outstanding requests") := by
  have hnonempty : ∀ a b : String, a ≠ "" → a ++ b ≠ "" := by
    intro a b ha hc
    apply ha
    have hd := congrArg String.data hc
    rw [String.data_append] at hd
    simp at hd
    exact String.ext hd.1
  refine ⟨?_, ?_, ?_⟩
  · intro f message hdec hmsg
    unfold getLokiError
    simp only [hdec, hmsg]
  · intro hcase
    rcases hcase with ⟨err, hdec⟩ | ⟨f, hdec, hmsg⟩
    · have hval : getLokiError jsonUnmarshal resp code
          = "Unknown error from Loki - cannot unmarshal (code: " ++ FormatInt code ++ ")" := by
        unfold getLokiError
        simp only [hdec]
      rw [hval]
      refine ⟨?_, _, _, rfl⟩
      rw [String.append_assoc]
      exact hnonempty _ _ (by decide)
    · have hval : getLokiError jsonUnmarshal resp code
          = "Unknown error from Loki - no message found (code: " ++ FormatInt code ++ ")" := by
        unfold getLokiError
        simp only [hdec, hmsg]
      rw [hval]
      refine ⟨?_, _, _, rfl⟩
      rw [String.append_assoc]
      exact hnonempty _ _ (by decide)
  · intro f hdec hmsg
    unfold getLokiError
    simp only [hdec, hmsg]
    rfl

/-- C7 (witness): the sample body with code 429 gives the message of the backend, and a
body that is no JSON gives, with code 500, a message that contains 500. -/
theorem getLokiError_message_witness :
    sampleUnmarshal sampleBody
      = Except.ok
          (fun key => if key = "message" then some "too many outstanding requests" else none) ∧
    getLokiError sampleUnmarshal sampleBody 429
      = "Error from Loki (code: 429): too many outstanding requests" ∧
    sampleUnmarshal sampleHtmlBody
      = Except.error "invalid character '<' looking for beginning of value" ∧
    (∃ before after,
      getLokiError sampleUnmarshal sampleHtmlBody 500 = before ++ FormatInt 500 ++ after) ∧
    FormatInt 500 = "500" :=
  ⟨by rfl,
    (getLokiError_message sampleUnmarshal sampleBody 429).2.2 _ (by rfl) (by rfl),
    by rfl,
    ((getLokiError_message sampleUnmarshal sampleHtmlBody 500).2.1
      (Or.inl ⟨_, by rfl⟩)).2,
    by decide⟩

end NetObserv
